import Mathlib

/-!
Verification of the `file_offset` crate.

The crate attaches two extension methods, `read_offset` and `write_offset`, to an
open file handle (`impl FileExt for File` in `src/lib.rs`), each delegating to a
compile-time selected platform back-end in `mod sys` (POSIX `pread64`/`pwrite64`
or Windows `seek_read`/`seek_write`).

The embedding below models a file as a list of bytes together with the
kernel-maintained cursor; a single call receives, besides the handle state, the
buffer and the offset, a "kernel disposition" describing how the host kernel
resolves this one call (how many bytes it is willing to move, or which
structured error it reports). Both back-ends are modelled from the crate's
documented contract, since the `sys` module's source is not part of the public
surface file; the public surface is translated directly from `src/lib.rs`.
-/

/-- The compile-time selected platform family: POSIX-like back-end
(`pread64`/`pwrite64`) or Windows back-end (`seek_read`/`seek_write`). -/
inductive Platform
  | posix
  | windows
deriving DecidableEq

/-- Kinds of structured I/O errors, following the crate's error taxonomy:
a transient interruption, and the terminal kinds. -/
inductive ErrorKind
  | interrupted
  | permissionDenied
  | badHandle
  | offsetInvalid
  | storageExhausted
  | otherKind
deriving DecidableEq

/-- A structured I/O error: a kind plus the raw platform code, preserved for
diagnostics. -/
structure IoError where
  kind : ErrorKind
  rawCode : Int
deriving DecidableEq

/-- The observable state of an open regular file: its byte contents, the
kernel-maintained cursor of the handle, and whether the handle is open. -/
structure FileState where
  data : List Nat
  cursor : Nat
  isOpen : Bool
deriving DecidableEq

/-- How the host kernel resolves one positional I/O call: either it is willing
to move up to `granted` bytes (possibly fewer than requested — a short
transfer), or it reports a structured error having moved nothing. -/
inductive KernelDisposition
  | transfer (granted : Nat)
  | fail (e : IoError)
deriving DecidableEq

namespace sys

/-- Modelled from the spec: the effect of the kernel write primitive
(`pwrite64` on POSIX, `seek_write` on Windows; the `sys` back-end sources are
not under the crate's public surface file) on the file contents. Writing `src`
at `offset` overwrites that region; if the offset lies past the current end,
the gap is filled with zero bytes (sparse extension). A call that transfers no
bytes leaves the file untouched (zero-length request). -/
def writeBytes (data : List Nat) (offset : Nat) (src : List Nat) : List Nat :=
  if src = [] then data
  else
    let padded := data ++ List.replicate (offset - data.length) 0
    padded.take offset ++ src ++ padded.drop (offset + src.length)

/-- Modelled from the spec: `sys::read_offset`, the back-end read primitive
(`pread64` / `seek_read`; the `sys` module sources are missing from the public
surface file). On a kernel error the error is returned unchanged and the state
is untouched. Otherwise the kernel moves `count = min granted (min buflen
avail)` bytes starting at `offset` into the front of the buffer, leaving the
tail of the buffer in its previous (unspecified to the caller) state; the
cursor is unchanged on POSIX and repositioned to `offset + count` on
Windows. -/
def read_offset (p : Platform) (f : FileState) (buf : List Nat) (offset : Nat)
    (d : KernelDisposition) : Except IoError (Nat × List Nat) × FileState :=
  match d with
  | .fail e => (.error e, f)
  | .transfer granted =>
    let count := min granted (min buf.length (f.data.length - offset))
    let bytes := (f.data.drop offset).take count
    let newCursor :=
      match p with
      | .posix => f.cursor
      | .windows => offset + count
    (.ok (count, bytes ++ buf.drop count), { f with cursor := newCursor })

/-- Modelled from the spec: `sys::write_offset`, the back-end write primitive
(`pwrite64` / `seek_write`; the `sys` module sources are missing from the
public surface file). On a kernel error the error is returned unchanged and the
state is untouched. Otherwise the kernel transfers `count = min granted buflen`
bytes from the front of the buffer into the file at `offset`; the cursor is
unchanged on POSIX and repositioned to `offset + count` on Windows. -/
def write_offset (p : Platform) (f : FileState) (buf : List Nat) (offset : Nat)
    (d : KernelDisposition) : Except IoError Nat × FileState :=
  match d with
  | .fail e => (.error e, f)
  | .transfer granted =>
    let count := min granted buf.length
    let newData := writeBytes f.data offset (buf.take count)
    let newCursor :=
      match p with
      | .posix => f.cursor
      | .windows => offset + count
    (.ok count, { f with data := newData, cursor := newCursor })

end sys

namespace File

/-- The public surface `FileExt::read_offset` for `File` (src/lib.rs lines
72–76): a pure delegation to `sys::read_offset`. -/
def read_offset (p : Platform) (f : FileState) (buf : List Nat) (offset : Nat)
    (d : KernelDisposition) : Except IoError (Nat × List Nat) × FileState :=
  sys.read_offset p f buf offset d

/-- The public surface `FileExt::write_offset` for `File` (src/lib.rs lines
77–80): a pure delegation to `sys::write_offset`. -/
def write_offset (p : Platform) (f : FileState) (buf : List Nat) (offset : Nat)
    (d : KernelDisposition) : Except IoError Nat × FileState :=
  sys.write_offset p f buf offset d

end File

/-- Claim C3: every kernel-reported error is surfaced to the caller unchanged
with the handle state untouched (no local recovery, no retry of a transient
`Interrupted` error, no conversion of an error into a successful short
transfer), while any granted transfer — short or zero — is returned through
the success channel, disjoint from the error channel. -/
theorem error_fidelity_propagation (p : Platform) (st : FileState)
    (buf src : List Nat) (offset : Nat) (e : IoError) (g : Nat) :
    File.read_offset p st buf offset (.fail e) = (.error e, st) ∧
    File.write_offset p st src offset (.fail e) = (.error e, st) ∧
    (File.read_offset p st buf offset (.transfer g)).1.isOk = true ∧
    (File.write_offset p st src offset (.transfer g)).1.isOk = true :=
  ⟨rfl, rfl, rfl, rfl⟩

/-- Claim C4: on the POSIX back-end the handle's cursor after any
`read_offset` or `write_offset` call, successful or not, is identical to its
cursor before the call. -/
theorem posix_offset_independence (st : FileState) (buf src : List Nat)
    (offset : Nat) (d : KernelDisposition) :
    (File.read_offset .posix st buf offset d).2.cursor = st.cursor ∧
    (File.write_offset .posix st src offset d).2.cursor = st.cursor :=
  ⟨by cases d <;> rfl, by cases d <;> rfl⟩

/-- Claim C9: a `read_offset` call leaves the file's data unchanged, and
neither operation closes, duplicates, or reopens the file handle (the
open-handle flag is preserved by both operations, on every platform and for
every kernel disposition). -/
theorem read_non_mutating (p : Platform) (st : FileState) (buf src : List Nat)
    (offset : Nat) (d : KernelDisposition) :
    (File.read_offset p st buf offset d).2.data = st.data ∧
    (File.read_offset p st buf offset d).2.isOpen = st.isOpen ∧
    (File.write_offset p st src offset d).2.isOpen = st.isOpen :=
  ⟨by cases d <;> rfl, by cases d <;> rfl, by cases d <;> rfl⟩

/-- Claim C10: the public surface is a pure delegation — `File::read_offset`
returns exactly `sys::read_offset` and `File::write_offset` returns exactly
`sys::write_offset`, with no transformation of counts or errors. -/
theorem pure_delegation :
    File.read_offset = sys.read_offset ∧ File.write_offset = sys.write_offset :=
  ⟨rfl, rfl⟩

/-- Claim C7: a zero-length request returns a count of 0 without error and
without touching the file's data when the kernel grants the call; when the
kernel refuses, its error is surfaced unchanged. -/
theorem zero_length_request (p : Platform) (st : FileState) (offset g : Nat)
    (e : IoError) :
    (File.read_offset p st [] offset (.transfer g)).1 = .ok (0, []) ∧
    (File.read_offset p st [] offset (.transfer g)).2.data = st.data ∧
    (File.write_offset p st [] offset (.transfer g)).1 = .ok 0 ∧
    (File.write_offset p st [] offset (.transfer g)).2.data = st.data ∧
    File.read_offset p st [] offset (.fail e) = (.error e, st) ∧
    File.write_offset p st [] offset (.fail e) = (.error e, st) := by
  refine ⟨?_, ?_, ?_, ?_, rfl, rfl⟩ <;>
    simp [File.read_offset, File.write_offset, sys.read_offset,
      sys.write_offset, sys.writeBytes]

/-- Claim C1: whenever `read_offset` or `write_offset` returns successfully,
the returned count is at most the length of the supplied buffer. -/
theorem bounded_transfer (p₁ p₂ : Platform) (st₁ st₂ : FileState)
    (buf src dst : List Nat) (off₁ off₂ : Nat) (d₁ d₂ : KernelDisposition)
    (n m : Nat) (st₁' st₂' : FileState)
    (hr : File.read_offset p₁ st₁ buf off₁ d₁ = (.ok (n, dst), st₁'))
    (hw : File.write_offset p₂ st₂ src off₂ d₂ = (.ok m, st₂')) :
    n ≤ buf.length ∧ m ≤ src.length := by
  constructor
  · cases d₁ with
    | fail e => simp [File.read_offset, sys.read_offset] at hr
    | transfer g =>
      simp only [File.read_offset, sys.read_offset, Prod.mk.injEq,
        Except.ok.injEq] at hr
      omega
  · cases d₂ with
    | fail e => simp [File.write_offset, sys.write_offset] at hw
    | transfer g =>
      simp only [File.write_offset, sys.write_offset, Prod.mk.injEq,
        Except.ok.injEq] at hw
      omega

/-- Witness for C1 at a concrete input: reading 3 bytes into a 4-byte buffer
and writing a 2-byte buffer both stay within the buffer bounds. -/
theorem bounded_transfer_witness :
    3 ≤ ([0, 0, 0, 0] : List Nat).length ∧ 2 ≤ ([1, 2] : List Nat).length :=
  bounded_transfer .posix .posix ⟨[10, 20, 30, 40, 50], 0, true⟩
    ⟨[10, 20, 30, 40, 50], 0, true⟩ [0, 0, 0, 0] [1, 2] [20, 30, 40, 0] 1 1
    (.transfer 3) (.transfer 3) 3 2 ⟨[10, 20, 30, 40, 50], 0, true⟩
    ⟨[10, 1, 2, 40, 50], 0, true⟩ rfl rfl

/-- Claim C5: on the Windows back-end, after a successful `read_offset` or
`write_offset` call that returns `count`, the handle's cursor equals
`offset + count`. -/
theorem windows_cursor_movement (st₁ st₂ : FileState) (buf src dst : List Nat)
    (off₁ off₂ : Nat) (d₁ d₂ : KernelDisposition) (n m : Nat)
    (st₁' st₂' : FileState)
    (hr : File.read_offset .windows st₁ buf off₁ d₁ = (.ok (n, dst), st₁'))
    (hw : File.write_offset .windows st₂ src off₂ d₂ = (.ok m, st₂')) :
    st₁'.cursor = off₁ + n ∧ st₂'.cursor = off₂ + m := by
  constructor
  · cases d₁ with
    | fail e => simp [File.read_offset, sys.read_offset] at hr
    | transfer g =>
      simp only [File.read_offset, sys.read_offset, Prod.mk.injEq,
        Except.ok.injEq] at hr
      obtain ⟨⟨hn, -⟩, hst⟩ := hr
      subst hst
      simp [hn]
  · cases d₂ with
    | fail e => simp [File.write_offset, sys.write_offset] at hw
    | transfer g =>
      simp only [File.write_offset, sys.write_offset, Prod.mk.injEq,
        Except.ok.injEq] at hw
      obtain ⟨hn, hst⟩ := hw
      subst hst
      simp [hn]

/-- Witness for C5 at a concrete input: on Windows, reading 3 bytes at offset
1 leaves the cursor at 4, and writing 2 bytes at offset 1 leaves it at 3. -/
theorem windows_cursor_movement_witness :
    (⟨[10, 20, 30, 40, 50], 1 + 3, true⟩ : FileState).cursor = 1 + 3 ∧
    (⟨[10, 1, 2, 40, 50], 1 + 2, true⟩ : FileState).cursor = 1 + 2 :=
  windows_cursor_movement ⟨[10, 20, 30, 40, 50], 0, true⟩
    ⟨[10, 20, 30, 40, 50], 0, true⟩ [0, 0, 0, 0] [1, 2] [20, 30, 40, 0] 1 1
    (.transfer 3) (.transfer 3) 3 2 ⟨[10, 20, 30, 40, 50], 1 + 3, true⟩
    ⟨[10, 1, 2, 40, 50], 1 + 2, true⟩ rfl rfl

/-- Claim C6: a `read_offset` granted by the kernel at an offset at or past
the end of the file, with a non-empty destination buffer, returns a count of 0
and no error, leaving the buffer as it was. -/
theorem eof_signaling (p : Platform) (st : FileState) (dst : List Nat)
    (offset g : Nat) (hoff : st.data.length ≤ offset) (hne : dst ≠ []) :
    (File.read_offset p st dst offset (.transfer g)).1 = .ok (0, dst) := by
  have h0 : st.data.length - offset = 0 := Nat.sub_eq_zero_of_le hoff
  simp [File.read_offset, sys.read_offset, h0]

/-- Witness for C6 at a concrete input: reading at offset 5 of a 2-byte file
into a 1-byte buffer returns count 0 and no error. -/
theorem eof_signaling_witness :
    ([1, 2] : List Nat).length ≤ 5 ∧ ([0] : List Nat) ≠ [] ∧
    (File.read_offset .posix ⟨[1, 2], 0, true⟩ [0] 5 (.transfer 9)).1 =
      .ok (0, [0]) :=
  ⟨by decide, by decide,
    eof_signaling .posix ⟨[1, 2], 0, true⟩ [0] 5 9 (by decide) (by decide)⟩

/-- Auxiliary: past the write position, the written file starts with the
written bytes — dropping `offset` bytes of the result of `writeBytes` exposes
`src` followed by the surviving tail of the (zero-padded) old contents. -/
lemma writeBytes_drop (data src : List Nat) (O : Nat) (h : src ≠ []) :
    (sys.writeBytes data O src).drop O =
      src ++ (data ++ List.replicate (O - data.length) 0).drop (O + src.length) := by
  have hl : ((data ++ List.replicate (O - data.length) 0).take O).length = O := by
    rw [List.length_take, List.length_append, List.length_replicate]
    omega
  simp only [sys.writeBytes, h, ite_false, if_neg, List.append_assoc]
  rw [List.drop_left' hl]

/-- Auxiliary: a write that transfers at least one byte leaves the file with
length `max (old length) (offset + bytes written)`. -/
lemma writeBytes_length (data src : List Nat) (O : Nat) (h : src ≠ []) :
    (sys.writeBytes data O src).length = max data.length (O + src.length) := by
  simp only [sys.writeBytes, h, ite_false, List.length_append, List.length_take,
    List.length_drop, List.length_replicate]
  omega

/-- Auxiliary list fact behind the round trip: reading `nr` bytes out of a
region that starts with the `n` written bytes of `B` reproduces the first
`min n nr` bytes of `B`. -/
lemma take_of_read_after_write (B rest dst : List Nat) (n nr : Nat)
    (hn : n ≤ B.length) (hnr : nr ≤ n + rest.length) :
    (((B.take n ++ rest).take nr) ++ dst.drop nr).take (min n nr) =
      B.take (min n nr) := by
  have h1 : min n nr ≤ ((B.take n ++ rest).take nr).length := by
    rw [List.length_take, List.length_append, List.length_take]
    omega
  rw [List.take_append_of_le_length h1, List.take_take]
  have h2 : min (min n nr) nr = min n nr := by omega
  rw [h2]
  have h3 : min n nr ≤ (B.take n).length := by
    rw [List.length_take]
    omega
  rw [List.take_append_of_le_length h3, List.take_take]
  congr 1
  omega

/-- Claim C2: after `write_offset` at offset `O` succeeds transferring `n`
bytes, a subsequent granted `read_offset` at `O` on the resulting handle state
with a destination of length at least `n` returns some count `n_read` such
that the first `min n n_read` bytes of the filled destination equal the first
`min n n_read` bytes of the written buffer. -/
theorem read_write_round_trip (p₁ p₂ : Platform) (st st' : FileState)
    (B dst : List Nat) (O gw gr n : Nat)
    (hw : File.write_offset p₁ st B O (.transfer gw) = (.ok n, st'))
    (hd : n ≤ dst.length) :
    ∃ nr dst' st'',
      File.read_offset p₂ st' dst O (.transfer gr) = (.ok (nr, dst'), st'') ∧
      dst'.take (min n nr) = B.take (min n nr) := by
  simp only [File.write_offset, sys.write_offset, Prod.mk.injEq,
    Except.ok.injEq] at hw
  obtain ⟨hn, hst⟩ := hw
  subst hst
  subst hn
  refine ⟨_, _, _, rfl, ?_⟩
  simp only
  by_cases h0 : gw ⊓ B.length = 0
  · simp [h0]
  · have hlen : (B.take (gw ⊓ B.length)).length = gw ⊓ B.length := by
      rw [List.length_take]
      omega
    have hne : B.take (gw ⊓ B.length) ≠ [] := by
      intro hcon
      rw [hcon] at hlen
      simp at hlen
      omega
    have hWlen : (sys.writeBytes st.data O (B.take (gw ⊓ B.length))).length =
        max st.data.length (O + (gw ⊓ B.length)) := by
      rw [writeBytes_length st.data _ O hne, hlen]
    rw [writeBytes_drop st.data (B.take (gw ⊓ B.length)) O hne, hlen]
    refine take_of_read_after_write B _ dst (gw ⊓ B.length) _ (by omega) ?_
    rw [List.length_drop, List.length_append, List.length_replicate, hWlen]
    omega

/-- Witness for C2 at a concrete input: writing the two bytes `[7, 8]` at
offset 0 of an empty file and reading back at offset 0 into a 3-byte buffer
reproduces those two bytes. -/
theorem read_write_round_trip_witness :
    ∃ nr dst' st'',
      File.read_offset .posix ⟨[7, 8], 0, true⟩ [0, 0, 0] 0 (.transfer 5) =
        (.ok (nr, dst'), st'') ∧
      dst'.take (min 2 nr) = ([7, 8] : List Nat).take (min 2 nr) :=
  read_write_round_trip .posix .posix ⟨[], 0, true⟩ ⟨[7, 8], 0, true⟩ [7, 8]
    [0, 0, 0] 0 2 5 2 rfl (by decide)

/-- Counterexample for C8 as stated: on an empty file (size 0), a granted
`write_offset` of the empty buffer at offset 1 (an offset strictly past the
end) succeeds with count 0, yet the new file size is 0, which is strictly
less than `offset + count = 1`, and the region `[0, 1)` has not become part
of the file. -/
theorem sparse_extension_counterexample :
    ([] : List Nat).length < 1 ∧
    (File.write_offset .posix ⟨[], 0, true⟩ [] 1 (.transfer 1)).1 = .ok 0 ∧
    ¬ (1 + 0 ≤
      (File.write_offset .posix ⟨[], 0, true⟩ [] 1 (.transfer 1)).2.data.length) :=
  ⟨by decide, rfl, by decide⟩

/-- Claim C8 as amended: a granted `write_offset` at an offset strictly past
the end of the file succeeds with some count, and whenever that count is
positive the new file size is at least `offset + count` (so the gap region up
to the offset has become part of the file). -/
theorem sparse_extension (p : Platform) (st : FileState) (B : List Nat)
    (O g : Nat) (hO : st.data.length < O) :
    ∃ n st', File.write_offset p st B O (.transfer g) = (.ok n, st') ∧
      (0 < n → O + n ≤ st'.data.length) := by
  refine ⟨_, _, rfl, ?_⟩
  simp only
  intro hpos
  have hlen : (B.take (g ⊓ B.length)).length = g ⊓ B.length := by
    rw [List.length_take]
    omega
  have hne : B.take (g ⊓ B.length) ≠ [] := by
    intro hcon
    rw [hcon] at hlen
    simp at hlen
    omega
  rw [writeBytes_length st.data _ O hne, hlen]
  omega

/-- Witness for the amended C8 at a concrete input: writing one byte at
offset 3 of a 1-byte file succeeds and extends the file to length at least
4. -/
theorem sparse_extension_witness :
    ∃ n st', File.write_offset .posix ⟨[9], 0, true⟩ [5] 3 (.transfer 1) =
        (.ok n, st') ∧ (0 < n → 3 + n ≤ st'.data.length) :=
  sparse_extension .posix ⟨[9], 0, true⟩ [5] 3 1 (by decide)
